import Mathlib

/-!
Verification of the natural-language-to-SQL pipeline of this repository.

Python strings are modelled as `List Char`.  The sanitization routine
`GenAIChain._clean_sql_response` (src/llm_logic.py, lines 104-124), the
pipeline `GenAIChain.ask` together with its stage methods `generate_sql`,
`execute_sql` and `generate_answer` (src/llm_logic.py), the Streamlit
guard of `render_chat_interface` (app.py, lines 134-182) and the probe
`BigQueryClient.test_connection` (src/bq_client.py, lines 66-76) are
embedded below.  External collaborators (the LangChain SQL chain, the
database `run` facility, the answer LLM, the BigQuery client) are
parameters: total functions returning `Except`, an `.error` value standing
for a raised Python exception.
-/

/-- Characters stripped by Python `str.strip()` (the `str.isspace` set). -/
def isPySpace (c : Char) : Bool :=
  c == ' ' || c == '\t' || c == '\n' || c == '\r' || c == '\x0b' || c == '\x0c' ||
  ('\x1c' ≤ c && c ≤ '\x1f') || c == '\x85' || c == '\xa0' || c == ' ' ||
  (' ' ≤ c && c ≤ ' ') || c == ' ' || c == ' ' ||
  c == ' ' || c == ' ' || c == '　'

/-- Python `s.strip()`: drop whitespace from the front, then from the back. -/
def pyStrip (s : List Char) : List Char :=
  ((s.dropWhile isPySpace).reverse.dropWhile isPySpace).reverse

/-- Python `s.startswith(p)` on list-of-character strings. -/
def listStartsWith : List Char → List Char → Bool
  | [], _ => true
  | _ :: _, [] => false
  | a :: as, b :: bs => a == b && listStartsWith as bs

/-- Python `s.endswith(p)` on list-of-character strings. -/
def listEndsWith (p s : List Char) : Bool :=
  listStartsWith p.reverse s.reverse

/-- The SQL-specific opening fence marker of `_clean_sql_response`. -/
def fenceSql : List Char := String.toList "```sql"

/-- The generic fence marker of `_clean_sql_response`. -/
def fence : List Char := String.toList "```"

/-- The label that `_clean_sql_response` strips case-insensitively. -/
def labelSqlquery : List Char := String.toList "sqlquery:"

/-- Lines 121-123 of src/llm_logic.py: `sql = sql.strip()` has
already been applied to the argument by the caller; here
`if sql.lower().startswith("sqlquery:"): sql = sql[9:].strip()`. -/
def stripLabel (sql : List Char) : List Char :=
  if listStartsWith labelSqlquery (sql.map Char.toLower) then pyStrip (sql.drop 9)
  else sql

/-- `GenAIChain._clean_sql_response` (src/llm_logic.py, lines 104-124).
Python `sql[6:]`, `sql[3:]`, `sql[9:]` are `List.drop`; `sql[:-3]` is
`List.take (sql.length - 3)`.  Python `str.lower` is modelled by
`Char.toLower` per character (the label comparison is ASCII-only). -/
def clean_sql_response (response : List Char) : List Char :=
  let sql := pyStrip response
  let sql :=
    if listStartsWith fenceSql sql then sql.drop 6
    else if listStartsWith fence sql then sql.drop 3
    else sql
  let sql := if listEndsWith fence sql then sql.take (sql.length - 3) else sql
  let sql := pyStrip sql
  stripLabel sql

/-- Modelled from the spec (section 4.2, step 2), word for word: strip
leading/trailing whitespace; if the response begins with the fenced code
block marker specific to the query language, strip that opening marker;
else if it begins with the generic fenced marker, strip that; if the
response ends with a closing fenced-block marker, strip it; re-strip
whitespace; if the remaining text begins case-insensitively with the
label "SQLQuery:", strip that prefix and re-strip whitespace. -/
def spec_sanitize (text : List Char) : List Char :=
  let t := pyStrip text
  let t :=
    if listStartsWith fenceSql t then t.drop fenceSql.length
    else if listStartsWith fence t then t.drop fence.length
    else t
  let t := if listEndsWith fence t then t.take (t.length - fence.length) else t
  let t := pyStrip t
  if listStartsWith labelSqlquery (t.map Char.toLower) then
    pyStrip (t.drop labelSqlquery.length)
  else t

/-- Equality of modelled call outcomes is decidable, so concrete runs of
the pipeline can be checked by evaluation. -/
instance {ε α : Type} [DecidableEq ε] [DecidableEq α] :
    DecidableEq (Except ε α) := fun a b =>
  match a, b with
  | .error e, .error f =>
    if h : e = f then .isTrue (by rw [h]) else .isFalse (by simp [h])
  | .error _, .ok _ => .isFalse (by simp)
  | .ok _, .error _ => .isFalse (by simp)
  | .ok x, .ok y =>
    if h : x = y then .isTrue (by rw [h]) else .isFalse (by simp [h])

/-- The four-key dictionary returned by `GenAIChain.ask`
(src/llm_logic.py, lines 189-194). -/
structure ExchangeRecord where
  question : List Char
  sql_query : List Char
  sql_result : List Char
  answer : List Char
deriving DecidableEq

/-- The external collaborators of `GenAIChain`: the LangChain SQL chain
(`self.sql_chain.invoke`), the database run facility (`self.db.run`) and
the answer LLM chain (`answer_chain.invoke` in `generate_answer`).  An
`.error` value models a raised Python exception. -/
structure ChainEnv where
  sqlChainInvoke : List Char → Except (List Char) (List Char)
  dbRun : List Char → Except (List Char) (List Char)
  answerInvoke : List Char → List Char → List Char → Except (List Char) (List Char)

/-- The observable calls one `ask` run makes on its collaborators:
`genCalls` counts invocations of the SQL-generation chain, `executed`
lists the arguments handed to `db.run`, `synthCalls` counts invocations
of the answer chain. -/
structure AskTrace where
  genCalls : Nat
  executed : List (List Char)
  synthCalls : Nat
deriving DecidableEq

/-- `GenAIChain.generate_sql` (src/llm_logic.py, lines 90-102):
invoke the SQL chain once, then clean its raw response. -/
def generate_sql (env : ChainEnv) (question : List Char) :
    Except (List Char) (List Char) :=
  match env.sqlChainInvoke question with
  | .error e => .error e
  | .ok raw => .ok (clean_sql_response raw)

/-- `GenAIChain.ask` (src/llm_logic.py, lines 172-194), instrumented with
the trace of collaborator calls.  `execute_sql` (lines 126-139) is the
direct delegation `env.dbRun`; `generate_answer` (lines 141-170) is the
single `env.answerInvoke`.  An exception in any stage aborts the rest. -/
def askTraced (env : ChainEnv) (question : List Char) :
    Except (List Char) ExchangeRecord × AskTrace :=
  match generate_sql env question with
  | .error e => (.error e, ⟨1, [], 0⟩)
  | .ok sql_query =>
    match env.dbRun sql_query with
    | .error e => (.error e, ⟨1, [sql_query], 0⟩)
    | .ok sql_result =>
      match env.answerInvoke question sql_query sql_result with
      | .error e => (.error e, ⟨1, [sql_query], 1⟩)
      | .ok answer =>
        (.ok ⟨question, sql_query, sql_result, answer⟩, ⟨1, [sql_query], 1⟩)

/-- `GenAIChain.ask` as seen by the caller: the returned record or the
propagated exception. -/
def ask (env : ChainEnv) (question : List Char) :
    Except (List Char) ExchangeRecord :=
  (askTraced env question).1

/-- What the chat turn of `render_chat_interface` (app.py, lines 134-182)
produces: the early-return info prompt when not connected, the rendered
answer, or the error message of the `except` branch. -/
inductive ChatOutcome where
  | infoPrompt : ChatOutcome
  | answered : ExchangeRecord → ChatOutcome
  | errorShown : List Char → ChatOutcome
deriving DecidableEq

/-- `render_chat_interface` (app.py, lines 134-182) for one submitted
prompt: if `st.session_state.connected` is false it shows an info message
and returns before `ask` is ever reached; otherwise it calls `ask` and
renders either the record or the caught exception's message. -/
def render_chat_interface (connected : Bool) (env : ChainEnv)
    (prompt : List Char) : ChatOutcome × AskTrace :=
  if connected then
    match askTraced env prompt with
    | (.ok rec, t) => (.answered rec, t)
    | (.error e, t) => (.errorShown e, t)
  else (.infoPrompt, ⟨0, [], 0⟩)

/-- True when the chat turn surfaced a raised error to the user. -/
def raisesError : ChatOutcome → Bool
  | .errorShown _ => true
  | _ => false

/-- `BigQueryClient.test_connection` (src/bq_client.py, lines 66-76):
run `SELECT 1` through the client and return `True`; a query failure is a
raised exception.  The client's query facility is the parameter. -/
def test_connection
    (clientQuery : List Char → Except (List Char) (List (List Char))) :
    Except (List Char) Bool :=
  match clientQuery (String.toList "SELECT 1") with
  | .error e => .error e
  | .ok _rows => .ok true

/-- A concrete healthy collaborator bundle for evaluating the pipeline. -/
def envOk : ChainEnv where
  sqlChainInvoke := fun _ => .ok (String.toList "```sql\nSELECT 1\n```")
  dbRun := fun _ => .ok (String.toList "[(1,)]")
  answerInvoke := fun _ _ _ => .ok (String.toList "There is one row.")

/-- A concrete collaborator bundle whose database run raises. -/
def envDbFail : ChainEnv where
  sqlChainInvoke := fun _ => .ok (String.toList "SELECT 1")
  dbRun := fun _ => .error (String.toList "400 Syntax error")
  answerInvoke := fun _ _ _ => .ok (String.toList "unused")

/-- The head surviving a `dropWhile` fails the predicate. -/
theorem dropWhile_head_false (p : Char → Bool) (l : List Char) :
    ∀ a, (l.dropWhile p).head? = some a → p a = false := by
  induction l with
  | nil => intro a h; simp [List.dropWhile] at h
  | cons b bs ih =>
    intro a h
    cases hb : p b with
    | false =>
      rw [List.dropWhile_cons, if_neg (by simp [hb])] at h
      simp at h
      exact h ▸ hb
    | true =>
      rw [List.dropWhile_cons, if_pos hb] at h
      exact ih a h

/-- `dropWhile` is the identity when the head already fails the predicate. -/
theorem dropWhile_eq_self_of_head (p : Char → Bool) (l : List Char)
    (h : ∀ a, l.head? = some a → p a = false) : l.dropWhile p = l := by
  cases l with
  | nil => rfl
  | cons b bs =>
    have hb := h b rfl
    rw [List.dropWhile_cons, if_neg (by simp [hb])]

/-- Python `strip` is idempotent. -/
theorem pyStrip_idem (s : List Char) : pyStrip (pyStrip s) = pyStrip s := by
  unfold pyStrip
  generalize ht : s.dropWhile isPySpace = t
  generalize hu : t.reverse.dropWhile isPySpace = u
  have hfront : u.reverse.dropWhile isPySpace = u.reverse := by
    apply dropWhile_eq_self_of_head
    intro a ha
    have h1 : t.reverse.takeWhile isPySpace ++ u = t.reverse := by
      rw [← hu]
      exact List.takeWhile_append_dropWhile isPySpace t.reverse
    have h2 := congrArg List.reverse h1
    rw [List.reverse_append, List.reverse_reverse] at h2
    have hth : t.head? = some a := by
      rw [← h2]
      cases hur : u.reverse with
      | nil => rw [hur] at ha; simp at ha
      | cons x xs =>
        rw [hur] at ha
        simp at ha
        simp [ha]
    exact dropWhile_head_false isPySpace s a (by rw [ht]; exact hth)
  have hback : u.dropWhile isPySpace = u := by
    apply dropWhile_eq_self_of_head
    intro a ha
    exact dropWhile_head_false isPySpace t.reverse a (by rw [hu]; exact ha)
  rw [hfront, List.reverse_reverse, hback]

/-- The output of the label-stripping step applied to a stripped string is
itself stripped. -/
theorem stripLabel_strip (w : List Char) :
    pyStrip (stripLabel (pyStrip w)) = stripLabel (pyStrip w) := by
  by_cases h : listStartsWith labelSqlquery ((pyStrip w).map Char.toLower) = true
  · simp [stripLabel, h, pyStrip_idem]
  · simp [stripLabel, h, pyStrip_idem]

/-- `_clean_sql_response` always returns a whitespace-stripped string. -/
theorem clean_stripped (x : List Char) :
    pyStrip (clean_sql_response x) = clean_sql_response x := by
  simp only [clean_sql_response]
  exact stripLabel_strip _

/-- On a stripped string carrying none of the markers,
`_clean_sql_response` is the identity. -/
theorem clean_eq_self (y : List Char) (hs : pyStrip y = y)
    (h1 : listStartsWith fenceSql y = false)
    (h2 : listStartsWith fence y = false)
    (h3 : listEndsWith fence y = false)
    (h4 : listStartsWith labelSqlquery (y.map Char.toLower) = false) :
    clean_sql_response y = y := by
  simp [clean_sql_response, stripLabel, hs, h1, h2, h3, h4]

/-- `listStartsWith` agrees with the existence of a completion. -/
theorem listStartsWith_iff (p : List Char) :
    ∀ s, listStartsWith p s = true ↔ ∃ r, s = p ++ r := by
  induction p with
  | nil => intro s; simp [listStartsWith]
  | cons a as ih =>
    intro s
    cases s with
    | nil =>
      simp [listStartsWith]
    | cons b bs =>
      simp only [listStartsWith, Bool.and_eq_true, beq_iff_eq, ih bs,
        List.cons_append, List.cons.injEq]
      constructor
      · rintro ⟨hab, r, hr⟩
        exact ⟨r, hab.symm, hr⟩
      · rintro ⟨r, hab, hr⟩
        exact ⟨hab.symm, r, hr⟩

/-- `listEndsWith` agrees with the existence of a leading remainder. -/
theorem listEndsWith_iff (p s : List Char) :
    listEndsWith p s = true ↔ ∃ r, s = r ++ p := by
  unfold listEndsWith
  rw [listStartsWith_iff]
  constructor
  · rintro ⟨r, hr⟩
    refine ⟨r.reverse, ?_⟩
    have h2 := congrArg List.reverse hr
    rw [List.reverse_reverse, List.reverse_append, List.reverse_reverse] at h2
    exact h2
  · rintro ⟨r, hr⟩
    refine ⟨r.reverse, ?_⟩
    rw [hr, List.reverse_append]

/-- Dropping characters from the front cannot create a suffix match that
the whole string does not have. -/
theorem listEndsWith_drop_false (p t : List Char) (n : Nat)
    (h : listEndsWith p t = false) : listEndsWith p (t.drop n) = false := by
  cases he : listEndsWith p (t.drop n) with
  | false => rfl
  | true =>
    obtain ⟨r, hr⟩ := (listEndsWith_iff p (t.drop n)).mp he
    have hw : t = (t.take n ++ r) ++ p := by
      conv_lhs => rw [← List.take_append_drop n t]
      rw [hr, List.append_assoc]
    have := (listEndsWith_iff p t).mpr ⟨t.take n ++ r, hw⟩
    rw [h] at this
    exact this.symm

/-- `u` occurs in `s` as one unbroken contiguous run of characters. -/
def contiguousIn (u s : List Char) : Prop := ∃ a b, s = a ++ u ++ b

theorem contiguousIn_refl (s : List Char) : contiguousIn s s :=
  ⟨[], [], by simp⟩

theorem contiguousIn_trans {a b c : List Char} (h1 : contiguousIn a b)
    (h2 : contiguousIn b c) : contiguousIn a c := by
  obtain ⟨x, y, hxy⟩ := h1
  obtain ⟨v, w, hvw⟩ := h2
  exact ⟨v ++ x, y ++ w, by rw [hvw, hxy]; simp [List.append_assoc]⟩

theorem contiguousIn_drop (s : List Char) (n : Nat) :
    contiguousIn (s.drop n) s :=
  ⟨s.take n, [], by simp⟩

theorem contiguousIn_take (s : List Char) (n : Nat) :
    contiguousIn (s.take n) s :=
  ⟨[], s.drop n, by simp⟩

theorem contiguousIn_dropWhile (p : Char → Bool) (s : List Char) :
    contiguousIn (s.dropWhile p) s :=
  ⟨s.takeWhile p, [], by simp⟩

theorem contiguousIn_pyStrip (s : List Char) : contiguousIn (pyStrip s) s := by
  unfold pyStrip
  refine contiguousIn_trans ?_ (contiguousIn_dropWhile isPySpace s)
  generalize s.dropWhile isPySpace = t
  refine ⟨[], (t.reverse.takeWhile isPySpace).reverse, ?_⟩
  have h := List.takeWhile_append_dropWhile isPySpace t.reverse
  have h2 := congrArg List.reverse h
  rw [List.reverse_append, List.reverse_reverse] at h2
  rw [List.nil_append]
  exact h2.symm

theorem contiguousIn_stripLabel (u : List Char) :
    contiguousIn (stripLabel u) u := by
  unfold stripLabel
  split
  · exact contiguousIn_trans (contiguousIn_pyStrip _) (contiguousIn_drop u 9)
  · exact contiguousIn_refl u

/-- The opening-fence step of `_clean_sql_response` keeps a contiguous run. -/
theorem contiguousIn_fenceStep (t : List Char) :
    contiguousIn
      (if listStartsWith fenceSql t then t.drop 6
        else if listStartsWith fence t then t.drop 3
        else t) t := by
  split
  · exact contiguousIn_drop t 6
  · split
    · exact contiguousIn_drop t 3
    · exact contiguousIn_refl t

/-- The closing-fence step of `_clean_sql_response` keeps a contiguous run. -/
theorem contiguousIn_closeStep (t : List Char) :
    contiguousIn
      (if listEndsWith fence t then t.take (t.length - 3) else t) t := by
  split
  · exact contiguousIn_take t (t.length - 3)
  · exact contiguousIn_refl t

/-- Claim C1, counterexample: sanitization is not idempotent.  On the
input "SQLQuery: SQLQuery: SELECT 1" one pass strips a single label,
leaving a string that a second pass strips again, so applying
`_clean_sql_response` twice differs from applying it once. -/
theorem clean_sql_response_not_idempotent :
    clean_sql_response (clean_sql_response
        (String.toList "SQLQuery: SQLQuery: SELECT 1")) ≠
      clean_sql_response (String.toList "SQLQuery: SQLQuery: SELECT 1") := by
  decide

/-- Claim C1, amended: sanitization is idempotent on every input whose
sanitized form carries none of the stripped markers, i.e. whenever
`_clean_sql_response x` does not begin with an opening fence marker
(SQL-specific or generic), does not end with a closing fence marker, and
does not begin case-insensitively with the label "SQLQuery:", then
`_clean_sql_response (_clean_sql_response x) = _clean_sql_response x`. -/
theorem clean_sql_response_idem_of_no_marker (x : List Char)
    (h1 : listStartsWith fenceSql (clean_sql_response x) = false)
    (h2 : listStartsWith fence (clean_sql_response x) = false)
    (h3 : listEndsWith fence (clean_sql_response x) = false)
    (h4 : listStartsWith labelSqlquery
        ((clean_sql_response x).map Char.toLower) = false) :
    clean_sql_response (clean_sql_response x) = clean_sql_response x :=
  clean_eq_self (clean_sql_response x) (clean_stripped x) h1 h2 h3 h4

/-- Witness for the amended claim C1 at the concrete input "SELECT 7". -/
theorem clean_sql_response_idem_of_no_marker_witness :
    listStartsWith fenceSql (clean_sql_response (String.toList "SELECT 7"))
        = false ∧
    listStartsWith fence (clean_sql_response (String.toList "SELECT 7"))
        = false ∧
    listEndsWith fence (clean_sql_response (String.toList "SELECT 7"))
        = false ∧
    listStartsWith labelSqlquery
        ((clean_sql_response (String.toList "SELECT 7")).map Char.toLower)
        = false ∧
    clean_sql_response (clean_sql_response (String.toList "SELECT 7")) =
      clean_sql_response (String.toList "SELECT 7") :=
  ⟨by decide, by decide, by decide, by decide,
    clean_sql_response_idem_of_no_marker (String.toList "SELECT 7")
      (by decide) (by decide) (by decide) (by decide)⟩

/-- Claim C2: `_clean_sql_response` computes exactly the spec's reference
algorithm (strip; strip the SQL-specific opening fence, else the generic
one; strip a closing fence; re-strip; strip the case-insensitive
"SQLQuery:" label and re-strip), and in particular an input with no
fencing and no label prefix is returned as its whitespace-trimmed self. -/
theorem clean_sql_response_matches_spec :
    (∀ x : List Char, clean_sql_response x = spec_sanitize x) ∧
    (∀ x : List Char,
      listStartsWith fenceSql (pyStrip x) = false →
      listStartsWith fence (pyStrip x) = false →
      listEndsWith fence (pyStrip x) = false →
      listStartsWith labelSqlquery ((pyStrip x).map Char.toLower) = false →
      clean_sql_response x = pyStrip x) := by
  constructor
  · intro x
    rfl
  · intro x h1 h2 h3 h4
    simp [clean_sql_response, stripLabel, h1, h2, h3, pyStrip_idem, h4]

/-- Witness for claim C2 at the concrete unfenced input "SELECT 1". -/
theorem clean_sql_response_matches_spec_witness :
    listStartsWith fenceSql (pyStrip (String.toList " SELECT 1 ")) = false ∧
    listStartsWith fence (pyStrip (String.toList " SELECT 1 ")) = false ∧
    listEndsWith fence (pyStrip (String.toList " SELECT 1 ")) = false ∧
    listStartsWith labelSqlquery
        ((pyStrip (String.toList " SELECT 1 ")).map Char.toLower) = false ∧
    clean_sql_response (String.toList " SELECT 1 ") =
      pyStrip (String.toList " SELECT 1 ") :=
  ⟨by decide, by decide, by decide, by decide,
    clean_sql_response_matches_spec.2 (String.toList " SELECT 1 ")
      (by decide) (by decide) (by decide) (by decide)⟩

/-- Claim C3: the two concrete sanitization examples of the spec. -/
theorem clean_sql_response_spec_examples :
    clean_sql_response (String.toList "```sql\nSELECT 1\n```") =
      String.toList "SELECT 1" ∧
    clean_sql_response (String.toList "SQLQuery: SELECT * FROM t") =
      String.toList "SELECT * FROM t" := by
  constructor <;> decide

/-- Claim C4: on a trimmed input that begins with an opening fence marker
and does not end with a closing one, `_clean_sql_response` removes just
that opening marker and then only re-strips whitespace and possibly the
"SQLQuery:" label. -/
theorem clean_open_fence_no_close (s : List Char)
    (hend : listEndsWith fence (pyStrip s) = false) :
    (listStartsWith fenceSql (pyStrip s) = true →
      clean_sql_response s = stripLabel (pyStrip ((pyStrip s).drop 6))) ∧
    (listStartsWith fenceSql (pyStrip s) = false →
      listStartsWith fence (pyStrip s) = true →
      clean_sql_response s = stripLabel (pyStrip ((pyStrip s).drop 3))) := by
  constructor
  · intro h1
    have h6 : listEndsWith fence ((pyStrip s).drop 6) = false :=
      listEndsWith_drop_false fence (pyStrip s) 6 hend
    simp [clean_sql_response, h1, h6]
  · intro h1 h2
    have h3 : listEndsWith fence ((pyStrip s).drop 3) = false :=
      listEndsWith_drop_false fence (pyStrip s) 3 hend
    simp [clean_sql_response, h1, h2, h3]

/-- Witness for claim C4 at the concrete input with an unclosed fence. -/
theorem clean_open_fence_no_close_witness :
    listEndsWith fence (pyStrip (String.toList "```sql SELECT 3")) = false ∧
    listStartsWith fenceSql (pyStrip (String.toList "```sql SELECT 3"))
        = true ∧
    clean_sql_response (String.toList "```sql SELECT 3") =
      stripLabel (pyStrip
        ((pyStrip (String.toList "```sql SELECT 3")).drop 6)) :=
  ⟨by decide, by decide,
    (clean_open_fence_no_close (String.toList "```sql SELECT 3")
      (by decide)).1 (by decide)⟩

/-- Claim C5: every string handed to the execution stage during a run of
`ask` is the `_clean_sql_response`-sanitized form of the raw model
response, never an unsanitized string. -/
theorem ask_executes_only_sanitized (env : ChainEnv) (q s : List Char)
    (hmem : s ∈ (askTraced env q).2.executed) :
    ∃ raw, env.sqlChainInvoke q = .ok raw ∧ s = clean_sql_response raw := by
  cases hg : env.sqlChainInvoke q with
  | error e =>
    simp [askTraced, generate_sql, hg] at hmem
  | ok raw =>
    refine ⟨raw, rfl, ?_⟩
    cases hd : env.dbRun (clean_sql_response raw) with
    | error e =>
      simp [askTraced, generate_sql, hg, hd] at hmem
      exact hmem
    | ok res =>
      cases ha : env.answerInvoke q (clean_sql_response raw) res with
      | error e =>
        simp [askTraced, generate_sql, hg, hd, ha] at hmem
        exact hmem
      | ok ans =>
        simp [askTraced, generate_sql, hg, hd, ha] at hmem
        exact hmem

/-- Witness for claim C5 on a concrete healthy pipeline. -/
theorem ask_executes_only_sanitized_witness :
    (String.toList "SELECT 1") ∈
      (askTraced envOk (String.toList "count rows")).2.executed ∧
    ∃ raw, envOk.sqlChainInvoke (String.toList "count rows") = .ok raw ∧
      String.toList "SELECT 1" = clean_sql_response raw :=
  ⟨by decide,
    ask_executes_only_sanitized envOk (String.toList "count rows")
      (String.toList "SELECT 1") (by decide)⟩

/-- Claim C6: when the execution stage raises, `ask` propagates exactly
that error and the answer-synthesis LLM chain is never invoked. -/
theorem ask_execution_error_propagates (env : ChainEnv) (q raw e : List Char)
    (hg : env.sqlChainInvoke q = .ok raw)
    (hd : env.dbRun (clean_sql_response raw) = .error e) :
    (askTraced env q).1 = .error e ∧
      (askTraced env q).2.synthCalls = 0 := by
  simp [askTraced, generate_sql, hg, hd]

/-- Witness for claim C6 on a pipeline whose database run raises. -/
theorem ask_execution_error_propagates_witness :
    envDbFail.sqlChainInvoke (String.toList "q") =
      .ok (String.toList "SELECT 1") ∧
    envDbFail.dbRun (clean_sql_response (String.toList "SELECT 1")) =
      .error (String.toList "400 Syntax error") ∧
    (askTraced envDbFail (String.toList "q")).1 =
      .error (String.toList "400 Syntax error") ∧
    (askTraced envDbFail (String.toList "q")).2.synthCalls = 0 :=
  ⟨by decide, by decide,
    ask_execution_error_propagates envDbFail (String.toList "q")
      (String.toList "SELECT 1") (String.toList "400 Syntax error")
      (by decide) (by decide)⟩

/-- Claim C7: `ask` never yields a partially-filled record: a returned
record echoes the question verbatim and every other field is the output
of its successfully completed stage; otherwise `ask` is an error and no
record exists. -/
theorem ask_record_fully_populated (env : ChainEnv) (q : List Char)
    (r : ExchangeRecord) (h : ask env q = .ok r) :
    r.question = q ∧
    ∃ raw, env.sqlChainInvoke q = .ok raw ∧
      r.sql_query = clean_sql_response raw ∧
      env.dbRun r.sql_query = .ok r.sql_result ∧
      env.answerInvoke q r.sql_query r.sql_result = .ok r.answer := by
  unfold ask at h
  cases hg : env.sqlChainInvoke q with
  | error e =>
    simp [askTraced, generate_sql, hg] at h
  | ok raw =>
    cases hd : env.dbRun (clean_sql_response raw) with
    | error e =>
      simp [askTraced, generate_sql, hg, hd] at h
    | ok res =>
      cases ha : env.answerInvoke q (clean_sql_response raw) res with
      | error e =>
        simp [askTraced, generate_sql, hg, hd, ha] at h
      | ok ans =>
        simp [askTraced, generate_sql, hg, hd, ha] at h
        subst h
        dsimp only
        exact ⟨rfl, raw, rfl, rfl, hd, ha⟩

/-- The record a healthy concrete pipeline produces. -/
def recOk : ExchangeRecord :=
  ⟨String.toList "count", String.toList "SELECT 1",
    String.toList "[(1,)]", String.toList "There is one row."⟩

/-- Witness for claim C7 on a concrete healthy pipeline. -/
theorem ask_record_fully_populated_witness :
    ask envOk (String.toList "count") = .ok recOk ∧
    (recOk.question = String.toList "count" ∧
    ∃ raw, envOk.sqlChainInvoke (String.toList "count") = .ok raw ∧
      recOk.sql_query = clean_sql_response raw ∧
      envOk.dbRun recOk.sql_query = .ok recOk.sql_result ∧
      envOk.answerInvoke (String.toList "count") recOk.sql_query
        recOk.sql_result = .ok recOk.answer) :=
  ⟨by decide,
    ask_record_fully_populated envOk (String.toList "count") recOk
      (by decide)⟩

/-- Claim C8, counterexample: with the connected flag still false, the
chat turn raises no error whatsoever (in particular no NotConnectedError,
which the code base never defines): it only renders the info prompt. -/
theorem render_chat_not_connected_raises_nothing :
    raisesError
      (render_chat_interface false envOk (String.toList "how many?")).1
      = false ∧
    (render_chat_interface false envOk (String.toList "how many?")).1 =
      ChatOutcome.infoPrompt := by
  constructor <;> decide

/-- Claim C8, amended: submitting a prompt before a successful connection
performs no network calls at all — the generation chain, the database run
facility and the answer chain are each invoked zero times — and the
interface returns the configuration info prompt instead of reaching
`ask`; no error is raised. -/
theorem render_chat_not_connected_no_calls (env : ChainEnv)
    (prompt : List Char) :
    render_chat_interface false env prompt =
      (ChatOutcome.infoPrompt, ⟨0, [], 0⟩) :=
  rfl

/-- Claim C9: the connectivity probe never returns `False`: whenever
`test_connection` returns at all (rather than raising), its value is
`True`. -/
theorem test_connection_never_false
    (f : List Char → Except (List Char) (List (List Char))) (r : Bool)
    (h : test_connection f = .ok r) : r = true := by
  unfold test_connection at h
  cases hq : f (String.toList "SELECT 1") with
  | error e =>
    rw [hq] at h
    simp at h
  | ok rows =>
    rw [hq] at h
    simp at h
    exact h

/-- Witness for claim C9 on a concrete healthy client. -/
theorem test_connection_never_false_witness :
    test_connection (fun _ => .ok [String.toList "1"]) = .ok true ∧
    (true : Bool) = true :=
  ⟨by decide,
    test_connection_never_false (fun _ => .ok [String.toList "1"]) true
      (by decide)⟩

/-- Claim C10: sanitization only removes characters from the two ends:
for every input, `_clean_sql_response x` is a contiguous substring of
`x`; no character is inserted, reordered or rewritten. -/
theorem clean_sql_response_contiguous (x : List Char) :
    contiguousIn (clean_sql_response x) x := by
  simp only [clean_sql_response]
  exact contiguousIn_trans (contiguousIn_stripLabel _)
    (contiguousIn_trans (contiguousIn_pyStrip _)
      (contiguousIn_trans (contiguousIn_closeStep _)
        (contiguousIn_trans (contiguousIn_fenceStep _)
          (contiguousIn_pyStrip x))))
